import Mathlib

/-!
Verification of the Conversant analytics adapter
(`modules/conversantAnalyticsAdapter.js`, the revision using `timeoutCache`
and `adIdLookup`).  The event handlers are embedded shallowly: JavaScript
values that may be `undefined` are modelled by the `JsVal` type, JavaScript
objects used as string-keyed dictionaries by `JsMap`, and a handler that can
throw a `TypeError` returns an `Except JsError` result alongside the updated
module state (mutations performed before the throw persist, as they do for
the module-level caches in JavaScript).
-/

mutual

/-- A JavaScript value, restricted to the shapes the adapter manipulates.
`undefined` is JavaScript `undefined`; `num` covers the integral numbers the
tests exercise; `arr` is an array, with `JsArr` a (mutually defined) list of
values. -/
inductive JsVal where
  | undefined : JsVal
  | null : JsVal
  | num : Int → JsVal
  | str : String → JsVal
  | bool : Bool → JsVal
  | arr : JsArr → JsVal
deriving Repr

/-- The element list of a JavaScript array value. -/
inductive JsArr where
  | nil : JsArr
  | cons : JsVal → JsArr → JsArr
deriving Repr

end

/-- `typeof v === 'undefined'`. -/
def JsVal.isUndef : JsVal → Bool
  | .undefined => true
  | _ => false

/-- `Array.isArray(v)`. -/
def JsVal.isArray : JsVal → Bool
  | .arr _ => true
  | _ => false

/-- `a.length` for an array. -/
def JsArr.length : JsArr → Nat
  | .nil => 0
  | .cons _ vs => vs.length + 1

/-- `a[i]` for an array: out-of-bounds reads give `undefined`. -/
def JsArr.get : JsArr → Nat → JsVal
  | .nil, _ => .undefined
  | .cons v _, 0 => v
  | .cons _ vs, i + 1 => vs.get i

/-- The elements of an array, as a Lean list. -/
def JsArr.toList : JsArr → List JsVal
  | .nil => []
  | .cons v vs => v :: vs.toList

mutual

/-- JavaScript string coercion (`String(v)` / `'' + v`) for the values above:
`undefined` prints as `"undefined"`, arrays join their elements with commas. -/
def jsToString : JsVal → String
  | .undefined => "undefined"
  | .null => "null"
  | .num n => toString n
  | .str s => s
  | .bool b => cond b "true" "false"
  | .arr xs => String.intercalate "," (jsToStrings xs)

/-- The element-wise string coercions of an array value. -/
def jsToStrings : JsArr → List String
  | .nil => []
  | .cons v vs => jsToString v :: jsToStrings vs

end

/-- `v[i]` for the values above: arrays index their elements, strings index
their characters, anything else yields `undefined`. -/
def jsIndex : JsVal → Nat → JsVal
  | .arr xs, i => xs.get i
  | .str s, i =>
    match s.toList.get? i with
    | some c => .str (String.mk [c])
    | none => .undefined
  | _, _ => .undefined

/-- Whether `v.length != 2` is false in JavaScript: arrays and strings have a
numeric `length`; for other values `length` is `undefined` (numbers, booleans)
so the loose inequality against 2 holds. -/
def jsLengthIsTwo : JsVal → Bool
  | .arr xs => xs.length == 2
  | .str s => s.length == 2
  | _ => false

/-- A JavaScript object used as a string-keyed dictionary. -/
def JsMap (α : Type) : Type := String → Option α

/-- The empty object `{}`. -/
def JsMap.empty {α : Type} : JsMap α := fun _ => none

/-- Property read `m[k]`. -/
def JsMap.get {α : Type} (m : JsMap α) (k : String) : Option α := m k

/-- Property assignment `m[k] = v`. -/
def JsMap.set {α : Type} (m : JsMap α) (k : String) (v : α) : JsMap α :=
  fun q => if q = k then some v else m q

/-- Property deletion `delete m[k]`. -/
def JsMap.del {α : Type} (m : JsMap α) (k : String) : JsMap α :=
  fun q => if q = k then none else m q

/-- The exceptions the handlers can raise: reading a property of
`undefined`, or calling `forEach` on a non-array. -/
inductive JsError where
  | typeError : JsError
deriving DecidableEq, Repr

-- ===================== module-level constants =====================

def CNVR_WIN : Nat := 10
def CNVR_BID : Nat := 20
def CNVR_NO_BID : Nat := 30
def CNVR_TIMEOUT : Nat := 40
def CNVR_RENDER_FAILED : Nat := 50

def MAX_MILLISECONDS_IN_CACHE : Int := 30000

-- ===================== cache entries and module state =====================

/-- A `timeoutCache` entry: `{ timeReceived: Date.now() }`. -/
structure TimeoutEntry where
  timeReceived : Int
deriving DecidableEq, Repr

/-- An `adIdLookup` entry written by `onBidWon`. -/
structure AdIdEntry where
  bidderCode : JsVal
  adUnitCode : JsVal
  auctionId : JsVal
  timeReceived : Int
deriving Repr

/-- The module-level mutable state: the two caches and whether the periodic
sweep interval is active. -/
structure EngineState where
  adIdLookup : JsMap AdIdEntry
  timeoutCache : JsMap TimeoutEntry
  sweepActive : Bool

/-- The process-wide values `createPayload` reads:
`getGlobal().version` and `initOptions.site_id`. -/
structure Globals where
  version : JsVal
  site_id : JsVal

-- ===================== cleanCache =====================

/-- `cleanCache(cacheObj, currTime)` generalized over the eviction age: the
body compares `currTime - cacheObj[key].timeReceived` against the constant
`MAX_MILLISECONDS_IN_CACHE`; here the bound is a parameter `maxAge` so that
the sweep contract can be stated for every age.  `tr` is the duck-typed
`.timeReceived` access, letting the same code sweep both caches. -/
def cleanCacheAt {α : Type} (tr : α → Int) (maxAge : Int) (cacheObj : JsMap α)
    (currTime : Int) : JsMap α :=
  fun key =>
    match cacheObj key with
    | some entry => if maxAge ≤ currTime - tr entry then none else some entry
    | none => none

/-- `cleanCache(cacheObj, currTime)` exactly as in the module: the eviction
age is the constant `MAX_MILLISECONDS_IN_CACHE`. -/
def cleanCache {α : Type} (tr : α → Int) (cacheObj : JsMap α) (currTime : Int) :
    JsMap α :=
  cleanCacheAt tr MAX_MILLISECONDS_IN_CACHE cacheObj currTime

-- ===================== payload builders =====================

/-- `getLookupKey(auctionId, adUnitCode, bidderCode)`: string concatenation
with `-`; `undefined` components coerce to the literal `"undefined"`. -/
def getLookupKey (auctionId adUnitCode bidderCode : JsVal) : String :=
  jsToString auctionId ++ "-" ++ jsToString adUnitCode ++ "-" ++ jsToString bidderCode

/-- `createAdSize(width, height)`: returns `{w: width, h: height}` with the
arguments stored verbatim (the module performs no validation). -/
structure CnvrAdSize where
  w : JsVal
  h : JsVal
deriving Repr

def createAdSize (width height : JsVal) : CnvrAdSize :=
  { w := width, h := height }

/-- A per-bidder record of the outgoing payload (`initializeBidDefaults`).
Fields initialized to `undefined` keep type `JsVal`; `adSize` is `none`
until an object is assigned. -/
structure BidPayload where
  eventCodes : List Nat
  adSize : Option CnvrAdSize
  cpm : JsVal
  originalCpm : JsVal
  currency : JsVal
  timeToRespond : JsVal
deriving Repr

/-- `initializeBidDefaults()`. -/
def initializeBidDefaults : BidPayload :=
  { eventCodes := []
    adSize := none
    cpm := .undefined
    originalCpm := .undefined
    currency := .undefined
    timeToRespond := .undefined }

/-- A per-ad-unit record of the outgoing payload. -/
structure AdUnitPayload where
  sizes : List CnvrAdSize
  bids : JsMap BidPayload

/-- `createAdUnit()`. -/
def createAdUnit : AdUnitPayload :=
  { sizes := [], bids := JsMap.empty }

/-- The `auction` sub-object of a payload. -/
structure AuctionFields where
  auctionId : JsVal
  preBidVersion : JsVal
  sid : JsVal
deriving Repr

/-- An outgoing payload (`createPayload` result, possibly extended by a
handler before being passed to `sendData`). -/
structure Payload where
  requestType : String
  auction : AuctionFields
  adUnits : JsMap AdUnitPayload

/-- `createPayload(payloadType, auctionId)`: stamps the request type, the
auction id (verbatim, even when `undefined`), the prebid version and the
site id, with an empty `adUnits` object. -/
def createPayload (payloadType : String) (auctionId : JsVal) (g : Globals) :
    Payload :=
  { requestType := payloadType
    auction :=
      { auctionId := auctionId
        preBidVersion := g.version
        sid := g.site_id }
    adUnits := JsMap.empty }

-- ===================== onBidTimeout =====================

/-- One element of the `bid_timeout` argument list. -/
structure TimeoutBid where
  bidId : JsVal
  bidder : JsVal
  adUnitCode : JsVal
  auctionId : JsVal

/-- `onBidTimeout(args)`: for every timed-out bid, unconditionally assign
`timeoutCache[getLookupKey(...)] = { timeReceived: Date.now() }`.  `now` is
the handler invocation instant. -/
def onBidTimeout (args : List TimeoutBid) (now : Int) (s : EngineState) :
    EngineState :=
  args.foldl
    (fun st timedOutBid =>
      { st with
        timeoutCache :=
          st.timeoutCache.set
            (getLookupKey timedOutBid.auctionId timedOutBid.adUnitCode
              timedOutBid.bidder)
            { timeReceived := now } })
    s

-- ===================== onBidWon =====================

/-- The fields of the `bid_won` argument the handler reads. -/
structure BidWonArgs where
  bidderCode : JsVal
  adUnitCode : JsVal
  auctionId : JsVal
  adId : JsVal
  width : JsVal
  height : JsVal
  cpm : JsVal
  originalCpm : JsVal
  currency : JsVal
  timeToRespond : JsVal

/-- `onBidWon(args)`: returns early when `bidderCode` or `adUnitCode` is
`undefined` (note: `auctionId` is not checked); otherwise builds a
`bid_won` payload with one ad unit and one bid carrying the win event-code,
writes an `adIdLookup` entry only when none exists for `args.adId`
(first-write-wins), and dispatches the payload (`some`). -/
def onBidWon (args : BidWonArgs) (now : Int) (g : Globals) (s : EngineState) :
    EngineState × Option Payload :=
  if args.bidderCode.isUndef || args.adUnitCode.isUndef then
    (s, none)
  else
    let bidWonPayload := createPayload "bid_won" args.auctionId g
    let bidPayload :=
      { initializeBidDefaults with
        eventCodes := initializeBidDefaults.eventCodes ++ [CNVR_WIN]
        adSize := some (createAdSize args.width args.height)
        cpm := args.cpm
        originalCpm := args.originalCpm
        currency := args.currency
        timeToRespond := args.timeToRespond }
    let adUnit :=
      { createAdUnit with
        bids := createAdUnit.bids.set (jsToString args.bidderCode) bidPayload }
    let bidWonPayload :=
      { bidWonPayload with
        adUnits := bidWonPayload.adUnits.set (jsToString args.adUnitCode) adUnit }
    let s1 :=
      if (s.adIdLookup.get (jsToString args.adId)).isNone then
        { s with
          adIdLookup :=
            s.adIdLookup.set (jsToString args.adId)
              { bidderCode := args.bidderCode
                adUnitCode := args.adUnitCode
                auctionId := args.auctionId
                timeReceived := now } }
      else s
    (s1, some bidWonPayload)

-- ===================== onAdRenderFailed =====================

/-- The fields of the `ad_render_failed` argument the handler reads. -/
structure RenderFailedArgs where
  reason : JsVal
  message : JsVal
  adId : JsVal

/-- `onAdRenderFailed(args)`: returns early when `adId` is `undefined` or no
`adIdLookup` entry exists for it; otherwise reads the entry, deletes it, and
only then checks the entry's `bidderCode`/`adUnitCode` — when either is
`undefined` it stops with the entry already consumed; otherwise it dispatches
a `render_failed` payload. -/
def onAdRenderFailed (args : RenderFailedArgs) (g : Globals) (s : EngineState) :
    EngineState × Option Payload :=
  if args.adId.isUndef then (s, none)
  else
    match s.adIdLookup.get (jsToString args.adId) with
    | none => (s, none)
    | some entry =>
      let adUnitCode := entry.adUnitCode
      let bidderCode := entry.bidderCode
      let auctionId := entry.auctionId
      let s1 := { s with adIdLookup := s.adIdLookup.del (jsToString args.adId) }
      if bidderCode.isUndef || adUnitCode.isUndef then (s1, none)
      else
        let renderFailedPayload := createPayload "render_failed" auctionId g
        let bid :=
          { initializeBidDefaults with
            eventCodes := initializeBidDefaults.eventCodes ++ [CNVR_RENDER_FAILED] }
        let adUnit :=
          { createAdUnit with
            bids := createAdUnit.bids.set (jsToString bidderCode) bid }
        let renderFailedPayload :=
          { renderFailedPayload with
            adUnits :=
              renderFailedPayload.adUnits.set (jsToString adUnitCode) adUnit }
        (s1, some renderFailedPayload)

-- ===================== onAuctionEnd =====================

/-- One element of `adUnit.bids` in the `auction_end` argument. -/
structure AuctionEndBidReq where
  bidder : JsVal

/-- One element of `args.adUnits` in the `auction_end` argument.  `sizes`
keeps its raw JavaScript shape. -/
structure AuctionEndAdUnit where
  code : JsVal
  bids : List AuctionEndBidReq
  sizes : JsVal

/-- One element of `args.noBids`. -/
structure NoBidRec where
  adUnitCode : JsVal
  bidder : JsVal

/-- One element of `args.bidsReceived`. -/
structure ReceivedBid where
  adUnitCode : JsVal
  bidderCode : JsVal
  timeToRespond : JsVal
  originalCpm : JsVal
  cpm : JsVal
  currency : JsVal
  width : JsVal
  height : JsVal

/-- The `auction_end` argument.  A field holds `none` when the corresponding
property is not an array (e.g. `undefined`), in which case calling `forEach`
on it throws a `TypeError`. -/
structure AuctionEndArgs where
  auctionId : JsVal
  adUnits : Option (List AuctionEndAdUnit)
  noBids : Option (List NoBidRec)
  bidsReceived : Option (List ReceivedBid)

/-- One element of the size loop in `onAuctionEnd`: `size.length != 2` skips
the element; reading `length` of `undefined`/`null` throws. -/
def processSize (acc : List CnvrAdSize) (size : JsVal) :
    Except JsError (List CnvrAdSize) :=
  match size with
  | .undefined => .error .typeError
  | .null => .error .typeError
  | _ =>
    if jsLengthIsTwo size then
      .ok (acc ++ [{ w := jsIndex size 0, h := jsIndex size 1 }])
    else
      .ok acc

/-- The size-collection block of `onAuctionEnd`: guarded by
`Array.isArray(adUnit.sizes) && adUnit.sizes.length >= 1`; a bare size pair
(first element not an array) is wrapped in a singleton list. -/
def collectSizes (sizes : JsVal) : Except JsError (List CnvrAdSize) :=
  match sizes with
  | .arr xs =>
    if xs.length ≥ 1 then
      let adSizes := if (xs.get 0).isArray then xs.toList else [JsVal.arr xs]
      adSizes.foldlM processSize []
    else
      .ok []
  | _ => .ok []

/-- The body of the bids loop in `onAuctionEnd`: initialize the bidder's
record, then on a `timeoutCache` hit push the timeout event-code onto the
just-initialized record and delete the cache entry. -/
def processAdUnitBid (auctionId adUnitCode : JsVal)
    (acc : JsMap BidPayload × JsMap TimeoutEntry) (bid : AuctionEndBidReq) :
    JsMap BidPayload × JsMap TimeoutEntry :=
  let bids := acc.1.set (jsToString bid.bidder) initializeBidDefaults
  let timeoutKey := getLookupKey auctionId adUnitCode bid.bidder
  match acc.2.get timeoutKey with
  | some _ =>
    let bids1 :=
      match bids.get (jsToString bid.bidder) with
      | some bp =>
        bids.set (jsToString bid.bidder)
          { bp with eventCodes := bp.eventCodes ++ [CNVR_TIMEOUT] }
      | none => bids
    (bids1, acc.2.del timeoutKey)
  | none => (bids, acc.2)

/-- The `args.adUnits.forEach` loop of `onAuctionEnd`.  The bids loop of an
ad unit runs (consuming `timeoutCache` entries) before its size loop, so a
size-loop throw keeps the deletions made so far; the error is reported in
the third component. -/
def processAdUnits (auctionId : JsVal) (payloadAdUnits : JsMap AdUnitPayload)
    (tc : JsMap TimeoutEntry) :
    List AuctionEndAdUnit →
      JsMap AdUnitPayload × JsMap TimeoutEntry × Option JsError
  | [] => (payloadAdUnits, tc, none)
  | adUnit :: rest =>
    let bidsTc := adUnit.bids.foldl (processAdUnitBid auctionId adUnit.code)
      (JsMap.empty, tc)
    match collectSizes adUnit.sizes with
    | .error e => (payloadAdUnits, bidsTc.2, some e)
    | .ok sizes =>
      processAdUnits auctionId
        (payloadAdUnits.set (jsToString adUnit.code)
          { sizes := sizes, bids := bidsTc.1 })
        bidsTc.2 rest

/-- The `args.noBids.forEach` loop: `adUnits[noBid.adUnitCode].bids[noBid.bidder]
.eventCodes.push(CNVR_NO_BID)` — a missing ad unit or bidder record throws a
`TypeError` (the code only carries a TODO to verify existence). -/
def processNoBids (payloadAdUnits : JsMap AdUnitPayload) :
    List NoBidRec → Except JsError (JsMap AdUnitPayload)
  | [] => .ok payloadAdUnits
  | noBid :: rest =>
    match payloadAdUnits.get (jsToString noBid.adUnitCode) with
    | none => .error .typeError
    | some adUnit =>
      match adUnit.bids.get (jsToString noBid.bidder) with
      | none => .error .typeError
      | some bp =>
        let bp1 := { bp with eventCodes := bp.eventCodes ++ [CNVR_NO_BID] }
        let adUnit1 :=
          { adUnit with bids := adUnit.bids.set (jsToString noBid.bidder) bp1 }
        processNoBids
          (payloadAdUnits.set (jsToString noBid.adUnitCode) adUnit1) rest

/-- The `args.bidsReceived.forEach` loop: pushes the bid event-code and copies
`timeToRespond`/`originalCpm`/`cpm`/`currency` and the `{w: width, h: height}`
ad size; a missing ad unit or bidder record throws a `TypeError`. -/
def processBidsReceived (payloadAdUnits : JsMap AdUnitPayload) :
    List ReceivedBid → Except JsError (JsMap AdUnitPayload)
  | [] => .ok payloadAdUnits
  | bid :: rest =>
    match payloadAdUnits.get (jsToString bid.adUnitCode) with
    | none => .error .typeError
    | some adUnit =>
      match adUnit.bids.get (jsToString bid.bidderCode) with
      | none => .error .typeError
      | some bp =>
        let bp1 :=
          { bp with
            eventCodes := bp.eventCodes ++ [CNVR_BID]
            timeToRespond := bid.timeToRespond
            originalCpm := bid.originalCpm
            cpm := bid.cpm
            currency := bid.currency
            adSize := some { w := bid.width, h := bid.height } }
        let adUnit1 :=
          { adUnit with bids := adUnit.bids.set (jsToString bid.bidderCode) bp1 }
        processBidsReceived
          (payloadAdUnits.set (jsToString bid.adUnitCode) adUnit1) rest

/-- `onAuctionEnd(args)`: builds the `auction_end` payload (no validation of
`auctionId`), runs the three loops in order (ad units with timeout matching,
then `noBids`, then `bidsReceived`), and dispatches (`.ok`) exactly when no
loop threw; on a throw the state mutated so far (consumed `timeoutCache`
entries) persists while nothing is dispatched. -/
def onAuctionEnd (args : AuctionEndArgs) (g : Globals) (s : EngineState) :
    EngineState × Except JsError Payload :=
  let auctionEndPayload := createPayload "auction_end" args.auctionId g
  match args.adUnits with
  | none => (s, .error .typeError)
  | some adUnits =>
    let step1 := processAdUnits args.auctionId auctionEndPayload.adUnits
      s.timeoutCache adUnits
    let s1 := { s with timeoutCache := step1.2.1 }
    match step1.2.2 with
    | some e => (s1, .error e)
    | none =>
      match args.noBids with
      | none => (s1, .error .typeError)
      | some noBids =>
        match processNoBids step1.1 noBids with
        | .error e => (s1, .error e)
        | .ok adUnits2 =>
          match args.bidsReceived with
          | none => (s1, .error .typeError)
          | some bidsReceived =>
            match processBidsReceived adUnits2 bidsReceived with
            | .error e => (s1, .error e)
            | .ok adUnits3 =>
              (s1, .ok { auctionEndPayload with adUnits := adUnits3 })

-- ===================== disable =====================

/-- Modelled from the spec: the module under `src/` contains no
`disableAnalytics` override (the base adapter hook and the revision that
clears the caches on disable live outside `src/`; only the tests exercise
them).  Per the spec's cancellation contract, disable stops the periodic
sweep, force-evicts every entry of both caches, and is a no-op when already
disabled. -/
def disableAnalytics (_s : EngineState) : EngineState :=
  { adIdLookup := JsMap.empty
    timeoutCache := JsMap.empty
    sweepActive := false }

-- ===================== concrete inputs for the scenarios =====================

/-- Globals as in the adapter's test page: prebid version 1.2, site 108060. -/
def g0 : Globals := { version := .str "1.2", site_id := .num 108060 }

/-- The state right after enabling: both caches empty, sweep running. -/
def emptyState : EngineState :=
  { adIdLookup := JsMap.empty, timeoutCache := JsMap.empty, sweepActive := true }

/-- An `auction_end` argument whose only bidder has a cached timeout and also
appears in `noBids`. -/
def c1Args : AuctionEndArgs :=
  { auctionId := .str "a1"
    adUnits := some [{ code := .str "au", bids := [{ bidder := .str "b1" }], sizes := .undefined }]
    noBids := some [{ adUnitCode := .str "au", bidder := .str "b1" }]
    bidsReceived := some [] }

/-- State holding the timeout cached for auction `a1`, slot `au`, bidder `b1`. -/
def c1State : EngineState :=
  { adIdLookup := JsMap.empty
    timeoutCache :=
      JsMap.empty.set (getLookupKey (.str "a1") (.str "au") (.str "b1"))
        { timeReceived := 100 }
    sweepActive := true }

/-- An `auction_end` argument with no `auctionId`. -/
def c2Args : AuctionEndArgs :=
  { auctionId := .undefined, adUnits := some [], noBids := some [], bidsReceived := some [] }

/-- An `auction_end` argument whose `noBids` entry references an ad slot that
was never declared. -/
def c3Args : AuctionEndArgs :=
  { auctionId := .str "a1"
    adUnits := some []
    noBids := some [{ adUnitCode := .str "X", bidder := .str "b" }]
    bidsReceived := some [] }

/-- A `bid_won` argument with `bidderCode` and `adUnitCode` present but no
`auctionId` (the test suite's bad-data case). -/
def c4Args : BidWonArgs :=
  { bidderCode := .str "conversant"
    adUnitCode := .str "div-0"
    auctionId := .undefined
    adId := .str "57e03aeafd83a68"
    width := .num 300
    height := .num 250
    cpm := .num 4
    originalCpm := .num 4
    currency := .str "USD"
    timeToRespond := .undefined }

/-- An `adIdLookup` entry lacking `bidderCode` (the bad-data lookup case). -/
def c6Entry : AdIdEntry :=
  { bidderCode := .undefined
    adUnitCode := .str "adUnitCode"
    auctionId := .str "auctionId"
    timeReceived := 5 }

/-- State holding `c6Entry` under the ad id the render-failure references. -/
def c6State : EngineState :=
  { adIdLookup := JsMap.empty.set "57e03aeafd83a68" c6Entry
    timeoutCache := JsMap.empty
    sweepActive := true }

/-- An `ad_render_failed` argument whose `adId` resolves to `c6Entry`. -/
def c6Args : RenderFailedArgs :=
  { reason := .str "reason", message := .str "value", adId := .str "57e03aeafd83a68" }

/-- A well-formed `adIdLookup` entry used by the invariant witnesses. -/
def wEntry : AdIdEntry :=
  { bidderCode := .str "conversant"
    adUnitCode := .str "div-0"
    auctionId := .str "a1"
    timeReceived := 7 }

/-- State holding `wEntry` under ad id `W` and a cached timeout for
auction `a1`, slot `au`, bidder `b1`. -/
def wState : EngineState :=
  { adIdLookup := JsMap.empty.set "W" wEntry
    timeoutCache :=
      JsMap.empty.set (getLookupKey (.str "a1") (.str "au") (.str "b1"))
        { timeReceived := 100 }
    sweepActive := true }

/-- A `bid_timeout` element for auction `a1`, slot `au`, bidder `b1`. -/
def wTimeoutBid : TimeoutBid :=
  { bidId := .str "t1", bidder := .str "b1", adUnitCode := .str "au", auctionId := .str "a1" }

/-- A `bid_won` argument whose `adId` is already cached in `wState`. -/
def wWonArgs : BidWonArgs :=
  { bidderCode := .str "conversant"
    adUnitCode := .str "div-0"
    auctionId := .str "a1"
    adId := .str "W"
    width := .num 300
    height := .num 250
    cpm := .num 4
    originalCpm := .num 4
    currency := .str "USD"
    timeToRespond := .num 334 }

/-- An `ad_render_failed` argument referencing an ad id other than `W`. -/
def wRenderArgs : RenderFailedArgs :=
  { reason := .str "reason", message := .str "value", adId := .str "other" }

/-- A single-entry cache used by the sweep witness. -/
def wCache : JsMap TimeoutEntry := JsMap.empty.set "K" { timeReceived := 100 }

/-- An `auction_end` argument declaring auction `a1`, slot `au`, bidder `b1`,
with empty `noBids` and `bidsReceived`. -/
def wEndArgs : AuctionEndArgs :=
  { auctionId := .str "a1"
    adUnits := some [{ code := .str "au", bids := [{ bidder := .str "b1" }], sizes := .undefined }]
    noBids := some []
    bidsReceived := some [] }

-- ===================== helper lemmas =====================

/-- Reading through an assignment. -/
theorem JsMap.get_set {α : Type} (m : JsMap α) (k q : String) (v : α) :
    (m.set k v).get q = if q = k then some v else m.get q := rfl

/-- Reading through a deletion. -/
theorem JsMap.get_del {α : Type} (m : JsMap α) (k q : String) :
    (m.del k).get q = if q = k then none else m.get q := rfl

/-- `onBidTimeout` only writes `timeoutCache`. -/
theorem onBidTimeout_adIdLookup_eq (args : List TimeoutBid) (now : Int)
    (s : EngineState) :
    (onBidTimeout args now s).adIdLookup = s.adIdLookup := by
  induction args generalizing s with
  | nil => rfl
  | cons b rest ih =>
    show (onBidTimeout rest now _).adIdLookup = s.adIdLookup
    rw [ih]

/-- `onBidWon` never overwrites an existing `adIdLookup` entry: any entry
present before the handler is still present, unchanged, afterwards. -/
theorem onBidWon_get_preserved (args : BidWonArgs) (now : Int) (g : Globals)
    (s : EngineState) (k : String) (e : AdIdEntry)
    (hk : s.adIdLookup.get k = some e) :
    ((onBidWon args now g s).1).adIdLookup.get k = some e := by
  unfold onBidWon
  split
  · exact hk
  · dsimp only
    by_cases hN : (s.adIdLookup.get (jsToString args.adId)).isNone
    · rw [if_pos hN]
      by_cases hq : k = jsToString args.adId
      · rw [hq] at hk
        rw [hk] at hN
        simp at hN
      · simpa [JsMap.get_set, hq] using hk
    · rw [if_neg hN]
      exact hk

/-- `onAuctionEnd` only writes `timeoutCache`. -/
theorem onAuctionEnd_adIdLookup_eq (args : AuctionEndArgs) (g : Globals)
    (s : EngineState) :
    ((onAuctionEnd args g s).1).adIdLookup = s.adIdLookup := by
  unfold onAuctionEnd
  dsimp only
  repeat' first
  | rfl
  | split

/-- `onAdRenderFailed` either leaves `adIdLookup` unchanged or deletes exactly
the entry for the referenced ad id. -/
theorem onAdRenderFailed_adIdLookup_cases (args : RenderFailedArgs)
    (g : Globals) (s : EngineState) :
    ((onAdRenderFailed args g s).1).adIdLookup = s.adIdLookup ∨
    ((onAdRenderFailed args g s).1).adIdLookup
      = s.adIdLookup.del (jsToString args.adId) := by
  unfold onAdRenderFailed
  split
  · exact Or.inl rfl
  · split
    · exact Or.inl rfl
    · dsimp only
      split
      · exact Or.inr rfl
      · exact Or.inr rfl

/-- Entries under a key other than the referenced ad id survive
`onAdRenderFailed` unchanged. -/
theorem onAdRenderFailed_get_preserved (args : RenderFailedArgs) (g : Globals)
    (s : EngineState) (k : String) (e : AdIdEntry)
    (hne : k ≠ jsToString args.adId) (hk : s.adIdLookup.get k = some e) :
    ((onAdRenderFailed args g s).1).adIdLookup.get k = some e := by
  rcases onAdRenderFailed_adIdLookup_cases args g s with h | h <;> rw [h]
  · exact hk
  · simpa [JsMap.get_del, hne] using hk

-- ===================== claim theorems =====================

/-- C1: for an auction-end in which bidder `b1` on slot `au` has a matching
`timeoutCache` entry and also appears in `noBids`, the dispatched report's
record for `b1` carries both the timeout and the no-bid event-codes and the
cache entry is consumed, but `timeToRespond` is left `undefined`: neither the
timeout branch nor the no-bid branch ever assigns it, so it does not equal 0
as the claim states. -/
theorem c1_both_codes_but_timeToRespond_stays_undefined :
    (((onAuctionEnd c1Args g0 c1State).2.toOption.bind
        (fun p => p.adUnits.get "au")).bind (fun au => au.bids.get "b1"))
      = some { eventCodes := [CNVR_TIMEOUT, CNVR_NO_BID]
               adSize := none
               cpm := .undefined
               originalCpm := .undefined
               currency := .undefined
               timeToRespond := .undefined } ∧
    (onAuctionEnd c1Args g0 c1State).1.timeoutCache.get
        (getLookupKey (.str "a1") (.str "au") (.str "b1")) = none :=
  ⟨rfl, rfl⟩

/-- C2: an auction-end without an `auctionId` is not aborted: the handler
performs no validation, builds the payload with `auctionId` `undefined`, and
dispatches it, contrary to the report-error-and-stop behaviour the claim
states. -/
theorem c2_missing_auctionId_still_dispatches :
    (onAuctionEnd c2Args g0 emptyState).2.toOption.map (fun p => p.auction.auctionId)
      = some JsVal.undefined :=
  rfl

/-- C3: a `noBids` record referencing an ad slot absent from the declared ad
units makes the handler throw a `TypeError` (property read on `undefined`),
so nothing is dispatched — the record is not skipped and no report goes out,
contrary to the skip-and-continue behaviour the claim states. -/
theorem c3_unmatched_noBid_throws_and_nothing_dispatched :
    (onAuctionEnd c3Args g0 emptyState).2 = .error .typeError :=
  rfl

/-- C4: a bid-won whose `auctionId` is missing (with `bidderCode` and
`adUnitCode` present) is not rejected: the handler only checks `bidderCode`
and `adUnitCode`, so it dispatches a `bid_won` payload and writes an
`adIdLookup` entry whose `auctionId` is `undefined`, contrary to the claim's
zero-dispatch, cache-unchanged behaviour. -/
theorem c4_missing_auctionId_still_sends_and_caches :
    (onBidWon c4Args 1000 g0 emptyState).2.map (fun p => p.requestType)
      = some "bid_won" ∧
    ((onBidWon c4Args 1000 g0 emptyState).1.adIdLookup.get "57e03aeafd83a68").map
        (fun e => e.auctionId) = some JsVal.undefined :=
  ⟨rfl, rfl⟩

/-- C5: `createAdSize` performs no integer validation at all: it stores both
arguments verbatim, so the string inputs and the absent inputs are not
replaced by the sentinel -1 the claim (and the test suite) expects; only the
integer case matches the claim. -/
theorem c5_createAdSize_stores_arguments_verbatim :
    createAdSize (.str "foo") (.str "bar") = { w := .str "foo", h := .str "bar" } ∧
    createAdSize .undefined .undefined = { w := .undefined, h := .undefined } ∧
    createAdSize (.num 1) (.num 2) = { w := .num 1, h := .num 2 } :=
  ⟨rfl, rfl, rfl⟩

/-- C6: when an `ad_render_failed` event's `adId` resolves to an existing
`adIdLookup` entry that lacks `bidderCode` or `adUnitCode`, the handler
deletes the entry and then stops: the entry is consumed yet no payload is
dispatched (consume-then-fail, not a rollback), and the timeout cache is
untouched. -/
theorem c6_renderFailed_consume_then_fail
    (args : RenderFailedArgs) (g : Globals) (s : EngineState) (e : AdIdEntry)
    (hAdId : args.adId.isUndef = false)
    (hLookup : s.adIdLookup.get (jsToString args.adId) = some e)
    (hBad : e.bidderCode.isUndef = true ∨ e.adUnitCode.isUndef = true) :
    (onAdRenderFailed args g s).2 = none ∧
    (onAdRenderFailed args g s).1.adIdLookup
      = s.adIdLookup.del (jsToString args.adId) ∧
    (onAdRenderFailed args g s).1.timeoutCache = s.timeoutCache := by
  have hb : (e.bidderCode.isUndef || e.adUnitCode.isUndef) = true := by
    rcases hBad with h | h <;> simp [h]
  have hget : s.adIdLookup.get (jsToString args.adId) = some e := hLookup
  unfold onAdRenderFailed
  rw [hAdId]
  simp only [Bool.false_eq_true, if_false]
  rw [hget]
  dsimp only
  rw [hb]
  simp

/-- C6 witness: the concrete bad-data scenario from the test suite — the
cached entry for ad id `57e03aeafd83a68` lacks `bidderCode`; the handler
consumes it and dispatches nothing. -/
theorem c6_renderFailed_consume_then_fail_witness :
    (onAdRenderFailed c6Args g0 c6State).2 = none ∧
    (onAdRenderFailed c6Args g0 c6State).1.adIdLookup
      = c6State.adIdLookup.del (jsToString c6Args.adId) ∧
    (onAdRenderFailed c6Args g0 c6State).1.timeoutCache = c6State.timeoutCache :=
  c6_renderFailed_consume_then_fail c6Args g0 c6State c6Entry rfl rfl (Or.inl rfl)

/-- C7: an existing `adIdLookup` entry is never modified by any event
handler: `onBidTimeout` and `onAuctionEnd` leave `adIdLookup` untouched, a
later `onBidWon` for the same (or any) ad id leaves the stored entry
unchanged (first-write-wins), and the only handler-side removal is
`onAdRenderFailed`'s delete of exactly the referenced ad id's entry. -/
theorem c7_adIdLookup_entries_immutable
    (s : EngineState) (k : String) (e : AdIdEntry)
    (tArgs : List TimeoutBid) (now : Int) (wArgs : BidWonArgs)
    (aArgs : AuctionEndArgs) (rArgs : RenderFailedArgs) (g : Globals)
    (hk : s.adIdLookup.get k = some e) :
    (onBidTimeout tArgs now s).adIdLookup.get k = some e ∧
    ((onBidWon wArgs now g s).1).adIdLookup.get k = some e ∧
    ((onAuctionEnd aArgs g s).1).adIdLookup.get k = some e ∧
    (k ≠ jsToString rArgs.adId →
      ((onAdRenderFailed rArgs g s).1).adIdLookup.get k = some e) ∧
    (((onAdRenderFailed rArgs g s).1).adIdLookup = s.adIdLookup ∨
      ((onAdRenderFailed rArgs g s).1).adIdLookup
        = s.adIdLookup.del (jsToString rArgs.adId)) := by
  refine ⟨?_, ?_, ?_, ?_, ?_⟩
  · rw [onBidTimeout_adIdLookup_eq]
    exact hk
  · exact onBidWon_get_preserved wArgs now g s k e hk
  · rw [onAuctionEnd_adIdLookup_eq]
    exact hk
  · exact fun hne => onAdRenderFailed_get_preserved rArgs g s k e hne hk
  · exact onAdRenderFailed_adIdLookup_cases rArgs g s

/-- C7 witness: the entry cached under ad id `W` survives a timeout batch, a
bid-won for the same ad id, and an auction-end, and a render-failure for a
different ad id leaves it readable; the render-failure changes `adIdLookup`
at most by deleting its own key. -/
theorem c7_adIdLookup_entries_immutable_witness :
    (onBidTimeout [wTimeoutBid] 2000 wState).adIdLookup.get "W" = some wEntry ∧
    ((onBidWon wWonArgs 2000 g0 wState).1).adIdLookup.get "W" = some wEntry ∧
    ((onAuctionEnd wEndArgs g0 wState).1).adIdLookup.get "W" = some wEntry ∧
    ("W" ≠ jsToString wRenderArgs.adId →
      ((onAdRenderFailed wRenderArgs g0 wState).1).adIdLookup.get "W" = some wEntry) ∧
    (((onAdRenderFailed wRenderArgs g0 wState).1).adIdLookup = wState.adIdLookup ∨
      ((onAdRenderFailed wRenderArgs g0 wState).1).adIdLookup
        = wState.adIdLookup.del (jsToString wRenderArgs.adId)) :=
  c7_adIdLookup_entries_immutable wState "W" wEntry [wTimeoutBid] 2000 wWonArgs
    wEndArgs wRenderArgs g0 rfl

/-- C8: for every cache, key, entry, instant and age bound, the sweep removes
the entry exactly when `now - timeReceived ≥ maxAge` and keeps it unchanged
exactly when its age is strictly smaller; it maps the empty cache to the
empty cache (no error), and the module's `cleanCache` is the sweep at the
constant age `MAX_MILLISECONDS_IN_CACHE`. -/
theorem c8_cleanCache_removes_iff_expired
    {α : Type} (tr : α → Int) (maxAge : Int) (c : JsMap α) (now : Int)
    (k : String) (e : α) (he : c.get k = some e) :
    ((cleanCacheAt tr maxAge c now).get k = none ↔ maxAge ≤ now - tr e) ∧
    ((cleanCacheAt tr maxAge c now).get k = some e ↔ now - tr e < maxAge) ∧
    cleanCacheAt tr maxAge (JsMap.empty : JsMap α) now = JsMap.empty ∧
    cleanCache tr c now = cleanCacheAt tr MAX_MILLISECONDS_IN_CACHE c now := by
  have hc : c k = some e := he
  have hgq : (cleanCacheAt tr maxAge c now).get k
      = if maxAge ≤ now - tr e then none else some e := by
    show cleanCacheAt tr maxAge c now k = _
    unfold cleanCacheAt
    rw [hc]
  refine ⟨?_, ?_, ?_, rfl⟩
  · rw [hgq]
    by_cases h : maxAge ≤ now - tr e <;> simp [h]
  · rw [hgq]
    by_cases h : maxAge ≤ now - tr e
    · simp [h]
    · simp [h]
      omega
  · funext q
    rfl

/-- C8 witness: a cache holding one entry of age 100 at instant 200 keeps it
for the bound 30000, and the sweep of the empty cache is the empty cache. -/
theorem c8_cleanCache_removes_iff_expired_witness :
    ((cleanCacheAt TimeoutEntry.timeReceived 30000 wCache 200).get "K" = none ↔
      30000 ≤ 200 - TimeoutEntry.timeReceived { timeReceived := 100 }) ∧
    ((cleanCacheAt TimeoutEntry.timeReceived 30000 wCache 200).get "K"
        = some { timeReceived := 100 } ↔
      200 - TimeoutEntry.timeReceived { timeReceived := 100 } < 30000) ∧
    cleanCacheAt TimeoutEntry.timeReceived 30000 (JsMap.empty : JsMap TimeoutEntry) 200
      = JsMap.empty ∧
    cleanCache TimeoutEntry.timeReceived wCache 200
      = cleanCacheAt TimeoutEntry.timeReceived MAX_MILLISECONDS_IN_CACHE wCache 200 :=
  c8_cleanCache_removes_iff_expired TimeoutEntry.timeReceived 30000 wCache 200 "K"
    { timeReceived := 100 } rfl

/-- C9: the disable operation is idempotent and clears everything: from any
state, disabling leaves both caches empty and the sweep stopped, and a second
disable is a no-op (the operation is total, so no error can occur). -/
theorem c9_disable_idempotent_and_empties (s : EngineState) :
    disableAnalytics (disableAnalytics s) = disableAnalytics s ∧
    (disableAnalytics s).adIdLookup = JsMap.empty ∧
    (disableAnalytics s).timeoutCache = JsMap.empty ∧
    (disableAnalytics s).sweepActive = false :=
  ⟨rfl, rfl, rfl, rfl⟩

/-- C10: `onBidTimeout` writes its cache entry unconditionally, so a repeated
timeout for the same (auctionId, adUnitCode, bidder) triple overwrites the
existing entry with the fresh `timeReceived` (last-write-wins) — in contrast
to `onBidWon`, which leaves an existing `adIdLookup` entry for the same ad id
unchanged (first-write-wins). -/
theorem c10_bidTimeout_overwrites_with_fresh_timestamp
    (s : EngineState) (b : TimeoutBid) (now t1 : Int)
    (wArgs : BidWonArgs) (g : Globals) (e : AdIdEntry)
    (_hPrev : s.timeoutCache.get (getLookupKey b.auctionId b.adUnitCode b.bidder)
      = some { timeReceived := t1 })
    (hWon : s.adIdLookup.get (jsToString wArgs.adId) = some e) :
    (onBidTimeout [b] now s).timeoutCache.get
        (getLookupKey b.auctionId b.adUnitCode b.bidder)
      = some { timeReceived := now } ∧
    ((onBidWon wArgs now g s).1).adIdLookup.get (jsToString wArgs.adId) = some e := by
  constructor
  · show (s.timeoutCache.set (getLookupKey b.auctionId b.adUnitCode b.bidder)
      { timeReceived := now }).get (getLookupKey b.auctionId b.adUnitCode b.bidder)
      = some { timeReceived := now }
    simp [JsMap.get_set]
  · exact onBidWon_get_preserved wArgs now g s (jsToString wArgs.adId) e hWon

/-- C10 witness: the cached timeout of age stamp 100 for `a1`/`au`/`b1` is
replaced by stamp 2000 on a repeated timeout, while the bid-won for the
already-cached ad id `W` leaves that entry unchanged. -/
theorem c10_bidTimeout_overwrites_with_fresh_timestamp_witness :
    (onBidTimeout [wTimeoutBid] 2000 wState).timeoutCache.get
        (getLookupKey wTimeoutBid.auctionId wTimeoutBid.adUnitCode wTimeoutBid.bidder)
      = some { timeReceived := 2000 } ∧
    ((onBidWon wWonArgs 2000 g0 wState).1).adIdLookup.get (jsToString wWonArgs.adId)
      = some wEntry :=
  c10_bidTimeout_overwrites_with_fresh_timestamp wState wTimeoutBid 2000 100
    wWonArgs g0 wEntry rfl rfl
